import Mathlib

/-!
Verification of the teaching-exercise code in this repository: the statistics
demo functions (`calculate_mean`, `normalize`, `standardize`), the
`DataHandler` record-validation exercise, and the folder-scaffolding script
(`create_folder_structure`).  Numeric code is embedded over `ℝ`; Python
exceptions are embedded as `Except String` results; the mutable class
attribute `default_columns` and the filesystem are threaded as explicit state.
-/

/-! ## Statistics demo functions -/

/-- Model of `np.mean(data)`: the arithmetic mean, sum divided by length. -/
noncomputable def npMean (data : List ℝ) : ℝ := data.sum / data.length

/-- Model of `np.std(data)` squared: numpy's population variance, the mean of the
squared deviations from the mean (numpy's default `ddof=0`). -/
noncomputable def npVar (data : List ℝ) : ℝ :=
  ((data.map fun x => (x - npMean data) ^ 2).sum) / data.length

/-- Model of `np.std(data)`: numpy's population standard deviation, the square root of
the population variance. -/
noncomputable def npStd (data : List ℝ) : ℝ := Real.sqrt (npVar data)

namespace DataProcessing

/-- Function `calculate_mean(numbers)` from the pytest notebook: raises
`ValueError("The list is empty")` on an empty list, otherwise returns
`sum(numbers) / len(numbers)`. -/
noncomputable def calculate_mean (numbers : List ℝ) : Except String ℝ :=
  if numbers.isEmpty then Except.error "The list is empty"
  else Except.ok (numbers.sum / numbers.length)

/-- Function `normalize(data)` from the pytest notebook: raises
`ValueError("Data is empty")` on an empty list, otherwise returns
`[(x - mean) / std for x in data]` with `mean = np.mean(data)` and
`std = np.std(data)`. -/
noncomputable def normalize (data : List ℝ) : Except String (List ℝ) :=
  if data.isEmpty then Except.error "Data is empty"
  else Except.ok (data.map fun x => (x - npMean data) / npStd data)

/-- Function `standardize(numbers)` from the pytest notebook: raises
`ValueError("The list is empty")` on an empty list, otherwise returns
`[(x - mean) / std_dev for x in numbers]` with `mean = np.mean(numbers)` and
`std_dev = np.std(numbers)`. -/
noncomputable def standardize (numbers : List ℝ) : Except String (List ℝ) :=
  if numbers.isEmpty then Except.error "The list is empty"
  else Except.ok (numbers.map fun x => (x - npMean numbers) / npStd numbers)

end DataProcessing

/-- Spec-side arithmetic mean, written over indexed elements. -/
noncomputable def specMean (xs : List ℝ) : ℝ :=
  (∑ i : Fin xs.length, xs.get i) / xs.length

/-- Spec-side population standard deviation, written over indexed elements. -/
noncomputable def specStd (xs : List ℝ) : ℝ :=
  Real.sqrt ((∑ i : Fin xs.length, (xs.get i - specMean xs) ^ 2) / xs.length)

/-! ## The DataHandler exercise

The disclosed solution of the notebook exercise: a class with the class
attribute `default_columns`, an instance attribute `data` (a pandas
DataFrame), the instance method `add_record`, the class method
`set_default_columns` and the static method `validate_record`.  The mutable
class attribute is threaded explicitly; exceptions become `Except.error`
results paired with the (unchanged) post-state of the handler. -/

/-- A field value of a record, e.g. `'Alice'`, `30` or `70000`. -/
inductive Value where
  | str : String → Value
  | int : Int → Value
deriving DecidableEq

/-- The in-memory table held by a handler: named columns plus rows. -/
structure DataFrame where
  columns : List String
  rows : List (List Value)
deriving DecidableEq

/-- A `DataHandler` instance: its only instance attribute is `data`. -/
structure DataHandler where
  data : DataFrame
deriving DecidableEq

/-- Models `pd.Series(record, index=index)`: pandas raises
`ValueError("Length of values does not match length of index")` when the
data and the index have different lengths, and otherwise builds the row. -/
def pdSeries (record : List Value) (index : List String) :
    Except String (List Value) :=
  if record.length = index.length then Except.ok record
  else Except.error "Length of values does not match length of index"

/-- Outcome of `add_record`: the raised-or-normal result together with the
post-state of the handler (unchanged whenever an exception is raised,
because the assignment to `self.data` is the last statement). -/
structure AddResult where
  result : Except String Unit
  self : DataHandler

namespace DataHandler

/-- Initial value of the class attribute `default_columns`. -/
def default_columns : List String := ["name", "age", "salary"]

/-- Static method `validate_record(record)`: returns
`len(record) == len(DataHandler.default_columns)`, reading the current
value of the class attribute (passed explicitly). -/
def validate_record (defaultColumns : List String) (record : List Value) :
    Bool :=
  record.length == defaultColumns.length

/-- Instance method `add_record(self, record)`: if `validate_record(record)`
holds, builds `pd.Series(record, index=self.data.columns)` and appends it
with `ignore_index=True`; otherwise raises
`ValueError("Record does not have the correct number of columns")`. -/
def add_record (defaultColumns : List String) (self : DataHandler)
    (record : List Value) : AddResult :=
  if validate_record defaultColumns record then
    match pdSeries record self.data.columns with
    | Except.ok new_row =>
      { result := Except.ok ()
        self := ⟨⟨self.data.columns, self.data.rows ++ [new_row]⟩⟩ }
    | Except.error e => { result := Except.error e, self := self }
  else
    { result := Except.error "Record does not have the correct number of columns"
      self := self }

end DataHandler

/-- The shared state of the class together with its existing instances:
`default_columns` is one class attribute shared by all handlers. -/
structure World where
  default_columns : List String
  handlers : List DataHandler
deriving DecidableEq

/-- Class method `set_default_columns(cls, columns)`: reassigns the class
attribute `cls.default_columns`; the instances themselves are untouched. -/
def DataHandler.set_default_columns (w : World) (columns : List String) :
    World :=
  { w with default_columns := columns }

/-! ## The folder-scaffolding script

`create_folder_structure(base_path)` runs two loops: `os.makedirs(...,
exist_ok=True)` over twelve directories and `open(..., 'a').close()` over
seventeen placeholder files.  A path is embedded as its list of components
(the Python string `"data/external"` is `["data", "external"]`, and
`os.path.join` concatenates component lists); the filesystem is the set of
existing directories plus a map from file paths to contents.  Both library
calls can raise — on a component that exists as a regular file, on a path
that is a directory, on a missing parent — and an exception propagates out
of the loop, leaving the effects performed so far in place. -/

/-- A filesystem path, as its list of components. -/
abbrev FsPath := List String

/-- The filesystem state: existing directory paths, and existing regular
files with their contents. -/
structure FileSystem where
  dirs : List FsPath
  files : List (FsPath × String)
deriving DecidableEq

/-- Content of the regular file at `p`, if one exists. -/
def lookupFile : List (FsPath × String) → FsPath → Option String
  | [], _ => none
  | (q, c) :: rest, p => if p = q then some c else lookupFile rest p

/-- Model of `os.path.join(base, p)` on component lists. -/
def pathJoin (base p : FsPath) : FsPath := base ++ p

/-- The nonempty prefixes of a path, shortest first: the chain of
directories that `os.makedirs` traverses or creates. -/
def prefixes : FsPath → List FsPath
  | [] => []
  | a :: rest => [a] :: (prefixes rest).map (a :: ·)

/-- One primitive filesystem action performed by the script: one `mkdir`
step of `os.makedirs(target, exist_ok=True)` on a component prefix of
`target`, or one `open(p, 'a').close()`. -/
inductive Act where
  | mkdirA : FsPath → FsPath → Act
  | touchA : FsPath → Act
deriving DecidableEq

/-- Semantics of one action.  A `mkdir` step on prefix `q` succeeds
silently when `q` already is a directory (that is `exist_ok=True`), creates
it when absent, and raises when `q` exists as a regular file —
`FileExistsError` when `q` is the `makedirs` target itself,
`NotADirectoryError` for an intermediate component.  A touch raises
`IsADirectoryError` when the path is a directory, leaves an existing file
untouched (append mode writes nothing), creates an empty file when the
parent directory exists, and otherwise raises — `NotADirectoryError` when
the parent is a regular file, `FileNotFoundError` when it is missing. -/
def applyAct (fs : FileSystem) : Act → Except String FileSystem
  | Act.mkdirA q target =>
    if (lookupFile fs.files q).isSome then
      Except.error (if q = target then "FileExistsError" else "NotADirectoryError")
    else if q ∈ fs.dirs then Except.ok fs
    else Except.ok { fs with dirs := q :: fs.dirs }
  | Act.touchA p =>
    if p ∈ fs.dirs then Except.error "IsADirectoryError"
    else if (lookupFile fs.files p).isSome then Except.ok fs
    else if p.dropLast = [] ∨ p.dropLast ∈ fs.dirs then
      Except.ok { fs with files := (p, "") :: fs.files }
    else if (lookupFile fs.files p.dropLast).isSome then
      Except.error "NotADirectoryError"
    else Except.error "FileNotFoundError"

/-- Outcome of running a sequence of actions: the raised-or-normal result
together with the filesystem state reached when the run stopped (the
effects performed before an exception stay in place). -/
structure RunResult where
  result : Except String Unit
  fs : FileSystem

/-- Runs actions in order; an exception aborts the rest of the run. -/
def runActs (fs : FileSystem) : List Act → RunResult
  | [] => ⟨Except.ok (), fs⟩
  | a :: rest =>
    match applyAct fs a with
    | Except.ok fs' => runActs fs' rest
    | Except.error e => ⟨Except.error e, fs⟩

/-- Model of `os.makedirs(p, exist_ok=True)`: one `mkdir` step per
component prefix of `p`, shortest first. -/
def makedirs (fs : FileSystem) (p : FsPath) : RunResult :=
  runActs fs ((prefixes p).map fun q => Act.mkdirA q p)

/-- Model of `open(p, 'a').close()`. -/
def touchAppend (fs : FileSystem) (p : FsPath) : RunResult :=
  runActs fs [Act.touchA p]

/-- A Python `for` loop whose body may raise: an exception aborts the
remaining iterations and propagates. -/
def forLoop {α : Type} (step : FileSystem → α → RunResult) (fs : FileSystem) :
    List α → RunResult
  | [] => ⟨Except.ok (), fs⟩
  | x :: rest =>
    match (step fs x).result with
    | Except.ok _ => forLoop step (step fs x).fs rest
    | Except.error e => ⟨Except.error e, (step fs x).fs⟩

/-- The `folders` list of `create_folder_structure`, as component lists. -/
def folders : List FsPath :=
  [["data", "external"], ["data", "interim"], ["data", "processed"],
   ["data", "raw"], ["envs"], ["docs"], ["models"], ["notebooks"],
   ["references"], ["reports", "figures"], ["src"], ["src", "modeling"]]

/-- The `files` list of `create_folder_structure`, as component lists. -/
def files : List FsPath :=
  [["LICENSE"], ["Makefile"], ["README.md"],
   ["envs", ".dev_env"], ["envs", ".prod_env"], ["envs", ".dev2_env"],
   ["envs", "dev_req.txt"], ["envs", "prod_req.txt"], ["envs", "dev2_req.txt"],
   ["src", "__init__.py"], ["src", "config.py"], ["src", "dataset.py"],
   ["src", "features.py"], ["src", "modeling", "__init__.py"],
   ["src", "modeling", "predict.py"], ["src", "modeling", "train.py"],
   ["src", "plots.py"]]

/-- Function `create_folder_structure(base_path)`: the first loop runs
`os.makedirs` on every folder, the second `open(..., 'a').close()` on every
file, each joined under the base path; an exception from either call
propagates. -/
def create_folder_structure (base_path : FsPath) (fs : FileSystem) : RunResult :=
  match (forLoop (fun s folder => makedirs s (pathJoin base_path folder)) fs folders).result with
  | Except.ok _ =>
    forLoop (fun s file => touchAppend s (pathJoin base_path file))
      (forLoop (fun s folder => makedirs s (pathJoin base_path folder)) fs folders).fs files
  | Except.error e =>
    ⟨Except.error e,
     (forLoop (fun s folder => makedirs s (pathJoin base_path folder)) fs folders).fs⟩

/-- The flat sequence of primitive actions the script performs. -/
def scriptActs (base_path : FsPath) : List Act :=
  (folders.map fun folder =>
      (prefixes (pathJoin base_path folder)).map fun q =>
        Act.mkdirA q (pathJoin base_path folder)).flatten
    ++ files.map fun file => Act.touchA (pathJoin base_path file)

/-- Stability of an action at a state: the state already records the
action's effect, so replaying the action succeeds and changes nothing. -/
def actStable (a : Act) (fs : FileSystem) : Prop :=
  match a with
  | Act.mkdirA q _ => q ∈ fs.dirs ∧ lookupFile fs.files q = none
  | Act.touchA p => p ∉ fs.dirs ∧ (lookupFile fs.files p).isSome = true

/-! ### Helper lemmas about the statistics functions -/

lemma sum_map_sub (xs : List ℝ) (m : ℝ) :
    (xs.map fun x => x - m).sum = xs.sum - xs.length * m := by
  induction xs with
  | nil => simp
  | cons a t ih =>
    simp only [List.map_cons, List.sum_cons, ih, List.length_cons]
    push_cast
    ring

lemma length_mul_npMean (xs : List ℝ) (h : xs ≠ []) :
    (xs.length : ℝ) * npMean xs = xs.sum := by
  have h0 : xs.length ≠ 0 := fun hh => h (List.length_eq_zero.mp hh)
  have hlen : (xs.length : ℝ) ≠ 0 := Nat.cast_ne_zero.mpr h0
  rw [npMean]
  field_simp

lemma length_mul_npVar (xs : List ℝ) (h : xs ≠ []) :
    (xs.length : ℝ) * npVar xs = (xs.map fun x => (x - npMean xs) ^ 2).sum := by
  have h0 : xs.length ≠ 0 := fun hh => h (List.length_eq_zero.mp hh)
  have hlen : (xs.length : ℝ) ≠ 0 := Nat.cast_ne_zero.mpr h0
  rw [npVar]
  field_simp

lemma standardized_sum (xs : List ℝ) (h : xs ≠ []) :
    (xs.map fun x => (x - npMean xs) / npStd xs).sum = 0 := by
  have hrw : (xs.map fun x => (x - npMean xs) / npStd xs)
      = xs.map fun x => (x - npMean xs) * (npStd xs)⁻¹ := by
    simp [div_eq_mul_inv]
  rw [hrw, List.sum_map_mul_right, sum_map_sub, ← length_mul_npMean xs h]
  ring

lemma npMean_eq_zero_of_sum (l : List ℝ) (h : l.sum = 0) : npMean l = 0 := by
  unfold npMean
  rw [h, zero_div]

lemma standardized_npMean (xs : List ℝ) (h : xs ≠ []) :
    npMean (xs.map fun x => (x - npMean xs) / npStd xs) = 0 :=
  npMean_eq_zero_of_sum _ (standardized_sum xs h)

lemma npVar_nonneg (xs : List ℝ) : 0 ≤ npVar xs := by
  unfold npVar
  apply div_nonneg
  · apply List.sum_nonneg
    intro x hx
    obtain ⟨y, -, rfl⟩ := List.mem_map.mp hx
    positivity
  · positivity

lemma sq_npStd (xs : List ℝ) : npStd xs ^ 2 = npVar xs :=
  Real.sq_sqrt (npVar_nonneg xs)

lemma npVar_ne_zero_of_npStd (xs : List ℝ) (h : npStd xs ≠ 0) : npVar xs ≠ 0 := by
  intro h0
  apply h
  rw [npStd, h0, Real.sqrt_zero]

lemma standardized_npVar (xs : List ℝ) (h : xs ≠ []) (hs : npStd xs ≠ 0) :
    npVar (xs.map fun x => (x - npMean xs) / npStd xs) = 1 := by
  have hmean := standardized_npMean xs h
  have h0 : xs.length ≠ 0 := fun hh => h (List.length_eq_zero.mp hh)
  have hlen : (xs.length : ℝ) ≠ 0 := Nat.cast_ne_zero.mpr h0
  have hvar := npVar_ne_zero_of_npStd xs hs
  unfold npVar
  rw [hmean, List.map_map, List.length_map]
  have hcomp : ((fun y => (y - 0) ^ 2) ∘ fun x => (x - npMean xs) / npStd xs)
      = fun x => (x - npMean xs) ^ 2 * ((npStd xs)⁻¹) ^ 2 := by
    funext x
    simp [Function.comp, div_eq_mul_inv, mul_pow]
  rw [hcomp, List.sum_map_mul_right, ← length_mul_npVar xs h]
  have hc : ((npStd xs)⁻¹) ^ 2 = (npVar xs)⁻¹ := by
    rw [inv_pow, sq_npStd]
  rw [hc]
  field_simp

lemma npStd_eq_one_of_npVar (l : List ℝ) (h : npVar l = 1) : npStd l = 1 := by
  unfold npStd
  rw [h, Real.sqrt_one]

lemma standardized_npStd (xs : List ℝ) (h : xs ≠ []) (hs : npStd xs ≠ 0) :
    npStd (xs.map fun x => (x - npMean xs) / npStd xs) = 1 :=
  npStd_eq_one_of_npVar _ (standardized_npVar xs h hs)

lemma sum_eq_finsum (xs : List ℝ) : xs.sum = ∑ i : Fin xs.length, xs.get i := by
  conv_lhs => rw [← List.ofFn_get xs]
  rw [Fin.sum_ofFn]

lemma sum_map_eq_finsum (f : ℝ → ℝ) (xs : List ℝ) :
    (xs.map f).sum = ∑ i : Fin xs.length, f (xs.get i) := by
  conv_lhs => rw [← List.ofFn_get xs]
  rw [List.map_ofFn, Fin.sum_ofFn]
  rfl

lemma npMean_eq_specMean (xs : List ℝ) : npMean xs = specMean xs := by
  unfold npMean specMean
  rw [sum_eq_finsum]

lemma npStd_eq_specStd (xs : List ℝ) : npStd xs = specStd xs := by
  unfold npStd npVar specStd
  rw [npMean_eq_specMean, sum_map_eq_finsum]

/-! ## Claims about the statistics functions -/

/-- C1 (amended): for every non-empty numeric sequence whose population
standard deviation is nonzero, `standardize` (equivalently `normalize`)
succeeds and the transformed output has mean exactly zero and population
standard deviation exactly one. -/
theorem standardize_mean_zero_std_one (xs : List ℝ) (h : xs ≠ [])
    (hs : npStd xs ≠ 0) :
    ∃ ys, DataProcessing.standardize xs = Except.ok ys
      ∧ DataProcessing.normalize xs = Except.ok ys
      ∧ npMean ys = 0 ∧ npStd ys = 1 := by
  refine ⟨xs.map fun x => (x - npMean xs) / npStd xs, ?_, ?_,
    standardized_npMean xs h, standardized_npStd xs h hs⟩
  · simp [DataProcessing.standardize, List.isEmpty_iff, h]
  · simp [DataProcessing.normalize, List.isEmpty_iff, h]

/-- Witness for C1 at the concrete input `[1, 3]`: its mean is `2` and its
population standard deviation is `1`, which is nonzero. -/
theorem standardize_mean_zero_std_one_witness :
    ∃ ys, DataProcessing.standardize [(1 : ℝ), 3] = Except.ok ys
      ∧ DataProcessing.normalize [(1 : ℝ), 3] = Except.ok ys
      ∧ npMean ys = 0 ∧ npStd ys = 1 :=
  standardize_mean_zero_std_one [1, 3] (by simp)
    (by rw [npStd, Real.sqrt_ne_zero']; norm_num [npVar, npMean])

/-- C1 counterexample: the non-empty constant sequence `[1, 1]` has zero
population standard deviation; `standardize [1, 1]` does not fail with the
empty-input error but produces a sequence whose standard deviation is `0`,
not (even approximately) one. -/
theorem standardize_constant_input_not_unit_std :
    DataProcessing.standardize [(1 : ℝ), 1] = Except.ok [0, 0]
    ∧ npStd [(0 : ℝ), 0] = 0 ∧ npStd [(0 : ℝ), 0] ≠ 1 := by
  refine ⟨?_, ?_, ?_⟩
  · norm_num [DataProcessing.standardize, npStd, npVar, npMean, Real.sqrt_zero]
  · norm_num [npStd, npVar, npMean, Real.sqrt_zero]
  · norm_num [npStd, npVar, npMean, Real.sqrt_zero]

/-- C5: `calculate_mean`, `normalize` and `standardize` each return their
descriptive error message exactly when the input is empty, and an error
result occurs only on the empty input. -/
theorem stats_error_iff_empty (xs : List ℝ) :
    (DataProcessing.calculate_mean xs = Except.error "The list is empty" ↔ xs = [])
    ∧ (DataProcessing.normalize xs = Except.error "Data is empty" ↔ xs = [])
    ∧ (DataProcessing.standardize xs = Except.error "The list is empty" ↔ xs = [])
    ∧ (∀ e, DataProcessing.calculate_mean xs = Except.error e → xs = [])
    ∧ (∀ e, DataProcessing.normalize xs = Except.error e → xs = [])
    ∧ (∀ e, DataProcessing.standardize xs = Except.error e → xs = []) := by
  cases xs with
  | nil =>
    refine ⟨?_, ?_, ?_, ?_, ?_, ?_⟩ <;>
      simp [DataProcessing.calculate_mean, DataProcessing.normalize,
        DataProcessing.standardize]
  | cons a t =>
    refine ⟨?_, ?_, ?_, ?_, ?_, ?_⟩ <;>
      simp [DataProcessing.calculate_mean, DataProcessing.normalize,
        DataProcessing.standardize]

/-- Witness for C5: the empty list produces the error, and a non-empty
list does not. -/
theorem stats_error_iff_empty_witness :
    DataProcessing.calculate_mean ([] : List ℝ) = Except.error "The list is empty"
    ∧ DataProcessing.standardize [(1 : ℝ)] ≠ Except.error "The list is empty" :=
  ⟨(stats_error_iff_empty []).1.mpr rfl,
   fun hc => List.cons_ne_nil 1 []
     ((stats_error_iff_empty [1]).2.2.2.2.2 "The list is empty" hc)⟩

/-- C6: on non-empty input, `standardize` returns a sequence of the same
length whose i-th element is `(xs[i] - mean) / std`, where `mean` is the
arithmetic mean and `std` the population standard deviation of the input. -/
theorem standardize_elementwise (xs : List ℝ) (h : xs ≠ []) :
    ∃ ys, DataProcessing.standardize xs = Except.ok ys
      ∧ ys.length = xs.length
      ∧ ∀ (i : ℕ) (hx : i < xs.length) (hy : i < ys.length),
          ys.get ⟨i, hy⟩ = (xs.get ⟨i, hx⟩ - specMean xs) / specStd xs := by
  refine ⟨xs.map fun x => (x - npMean xs) / npStd xs, ?_, by simp, ?_⟩
  · simp [DataProcessing.standardize, List.isEmpty_iff, h]
  · intro i hx hy
    simp only [List.get_eq_getElem, List.getElem_map, npMean_eq_specMean,
      npStd_eq_specStd]

/-! ## Claims about the DataHandler exercise -/

/-- C2: `validate_record` returns true exactly when the number of fields in
the candidate record equals the number of declared columns. -/
theorem validate_record_iff_field_count (defaultColumns : List String)
    (record : List Value) :
    DataHandler.validate_record defaultColumns record = true ↔
      record.length = defaultColumns.length := by
  simp [DataHandler.validate_record]

/-- C3: on a record whose field count differs from the declared column
count, `add_record` raises the ValueError and the handler is left completely
unchanged. -/
theorem add_record_invalid_no_mutation (defaultColumns : List String)
    (self : DataHandler) (record : List Value)
    (hinv : record.length ≠ defaultColumns.length) :
    (DataHandler.add_record defaultColumns self record).result
        = Except.error "Record does not have the correct number of columns"
    ∧ (DataHandler.add_record defaultColumns self record).self = self := by
  have hv : DataHandler.validate_record defaultColumns record = false := by
    simp [DataHandler.validate_record, hinv]
  simp [DataHandler.add_record, hv]

/-- Witness for C3: a one-field record against the three declared columns. -/
theorem add_record_invalid_no_mutation_witness :
    (DataHandler.add_record DataHandler.default_columns
        ⟨⟨DataHandler.default_columns, []⟩⟩ [Value.str "Alice"]).result
      = Except.error "Record does not have the correct number of columns"
    ∧ (DataHandler.add_record DataHandler.default_columns
        ⟨⟨DataHandler.default_columns, []⟩⟩ [Value.str "Alice"]).self
      = ⟨⟨DataHandler.default_columns, []⟩⟩ :=
  add_record_invalid_no_mutation DataHandler.default_columns
    ⟨⟨DataHandler.default_columns, []⟩⟩ [Value.str "Alice"] (by decide)

/-- C4 counterexample: after `set_default_columns` has grown the declared
columns to four, a handler whose table still has the three original columns
rejects the valid four-field record inside `pd.Series`: `add_record` raises
and no row is appended, even though `validate_record` accepted the record. -/
theorem add_record_valid_record_can_fail :
    DataHandler.validate_record ["name", "age", "salary", "department"]
        [Value.str "Bob", Value.int 25, Value.int 60000, Value.str "HR"] = true
    ∧ (DataHandler.add_record ["name", "age", "salary", "department"]
        ⟨⟨["name", "age", "salary"], []⟩⟩
        [Value.str "Bob", Value.int 25, Value.int 60000, Value.str "HR"]).result
      = Except.error "Length of values does not match length of index"
    ∧ (DataHandler.add_record ["name", "age", "salary", "department"]
        ⟨⟨["name", "age", "salary"], []⟩⟩
        [Value.str "Bob", Value.int 25, Value.int 60000, Value.str "HR"]).self.data.rows.length
      = 0 := by
  refine ⟨rfl, rfl, rfl⟩

/-- C4 (amended): when the record is valid and the handler's table has as
many columns as there are declared columns, `add_record` succeeds and the
table afterwards has exactly one more row than before. -/
theorem add_record_valid_appends_row (defaultColumns : List String)
    (self : DataHandler) (record : List Value)
    (hval : record.length = defaultColumns.length)
    (hcols : self.data.columns.length = defaultColumns.length) :
    (DataHandler.add_record defaultColumns self record).result = Except.ok ()
    ∧ (DataHandler.add_record defaultColumns self record).self.data.rows.length
        = self.data.rows.length + 1 := by
  have hv : DataHandler.validate_record defaultColumns record = true := by
    simp [DataHandler.validate_record, hval]
  have hp : pdSeries record self.data.columns = Except.ok record := by
    simp [pdSeries, hval.trans hcols.symm]
  simp [DataHandler.add_record, hv, hp]

/-- Witness for the amended C4: a three-field record appended to a
three-column table under the three declared columns. -/
theorem add_record_valid_appends_row_witness :
    (DataHandler.add_record DataHandler.default_columns
        ⟨⟨DataHandler.default_columns, []⟩⟩
        [Value.str "Alice", Value.int 30, Value.int 70000]).result = Except.ok ()
    ∧ (DataHandler.add_record DataHandler.default_columns
        ⟨⟨DataHandler.default_columns, []⟩⟩
        [Value.str "Alice", Value.int 30, Value.int 70000]).self.data.rows.length
      = ((⟨⟨DataHandler.default_columns, []⟩⟩ : DataHandler)).data.rows.length + 1 :=
  add_record_valid_appends_row DataHandler.default_columns
    ⟨⟨DataHandler.default_columns, []⟩⟩
    [Value.str "Alice", Value.int 30, Value.int 70000] (by decide) (by decide)

/-- C7: when the handler's table has a column count different from the
declared column count, a record with exactly the declared number of fields
passes `validate_record` yet `add_record` fails while building the new row
(the pandas length mismatch), raises, and adds no row. -/
theorem validate_ok_but_append_fails (defaultColumns : List String)
    (self : DataHandler) (record : List Value)
    (hval : record.length = defaultColumns.length)
    (hmis : self.data.columns.length ≠ defaultColumns.length) :
    DataHandler.validate_record defaultColumns record = true
    ∧ (DataHandler.add_record defaultColumns self record).result
        = Except.error "Length of values does not match length of index"
    ∧ (DataHandler.add_record defaultColumns self record).self = self := by
  have hv : DataHandler.validate_record defaultColumns record = true := by
    simp [DataHandler.validate_record, hval]
  have hp : pdSeries record self.data.columns
      = Except.error "Length of values does not match length of index" := by
    have : record.length ≠ self.data.columns.length := by
      rw [hval]
      exact fun hh => hmis hh.symm
    simp [pdSeries, this]
  exact ⟨hv, by simp [DataHandler.add_record, hv, hp]⟩

/-- Witness for C7: four declared columns, a four-field record, and a table
that still has three columns. -/
theorem validate_ok_but_append_fails_witness :
    DataHandler.validate_record ["name", "age", "salary", "department"]
        [Value.str "Cara", Value.int 28, Value.int 50000, Value.str "IT"] = true
    ∧ (DataHandler.add_record ["name", "age", "salary", "department"]
        ⟨⟨["name", "age", "salary"], [[Value.str "Alice", Value.int 30, Value.int 70000]]⟩⟩
        [Value.str "Cara", Value.int 28, Value.int 50000, Value.str "IT"]).result
      = Except.error "Length of values does not match length of index"
    ∧ (DataHandler.add_record ["name", "age", "salary", "department"]
        ⟨⟨["name", "age", "salary"], [[Value.str "Alice", Value.int 30, Value.int 70000]]⟩⟩
        [Value.str "Cara", Value.int 28, Value.int 50000, Value.str "IT"]).self
      = ⟨⟨["name", "age", "salary"], [[Value.str "Alice", Value.int 30, Value.int 70000]]⟩⟩ :=
  validate_ok_but_append_fails ["name", "age", "salary", "department"]
    ⟨⟨["name", "age", "salary"], [[Value.str "Alice", Value.int 30, Value.int 70000]]⟩⟩
    [Value.str "Cara", Value.int 28, Value.int 50000, Value.str "IT"]
    (by decide) (by decide)

/-- C8: the declared column count is shared mutable class state: after
`set_default_columns(columns)`, `validate_record` compares against the new
`columns` for every handler instance (the instances themselves are
unchanged), so a record that was valid before the call becomes invalid for
all existing handlers when the column count changes. -/
theorem set_default_columns_shared_state (w : World) (columns : List String)
    (record : List Value) (hbefore : record.length = w.default_columns.length)
    (hchange : record.length ≠ columns.length) :
    (DataHandler.validate_record
        (DataHandler.set_default_columns w columns).default_columns record
      = (record.length == columns.length))
    ∧ (DataHandler.set_default_columns w columns).handlers = w.handlers
    ∧ DataHandler.validate_record w.default_columns record = true
    ∧ DataHandler.validate_record
        (DataHandler.set_default_columns w columns).default_columns record
      = false := by
  refine ⟨rfl, rfl, ?_, ?_⟩
  · simp [DataHandler.validate_record, hbefore]
  · simp [DataHandler.validate_record, DataHandler.set_default_columns, hchange]

/-- Witness for C8: the notebook's own example — after widening the declared
columns to four, the three-field record `['Alice', 30, 70000]` that was valid
before the call is invalid afterwards, for the existing handler. -/
theorem set_default_columns_shared_state_witness :
    (DataHandler.validate_record
        (DataHandler.set_default_columns
          ⟨DataHandler.default_columns, [⟨⟨DataHandler.default_columns, []⟩⟩]⟩
          ["name", "age", "salary", "department"]).default_columns
        [Value.str "Alice", Value.int 30, Value.int 70000]
      = (([Value.str "Alice", Value.int 30, Value.int 70000] : List Value).length
          == (["name", "age", "salary", "department"] : List String).length))
    ∧ (DataHandler.set_default_columns
        ⟨DataHandler.default_columns, [⟨⟨DataHandler.default_columns, []⟩⟩]⟩
        ["name", "age", "salary", "department"]).handlers
      = [⟨⟨DataHandler.default_columns, []⟩⟩]
    ∧ DataHandler.validate_record
        (⟨DataHandler.default_columns, [⟨⟨DataHandler.default_columns, []⟩⟩]⟩ : World).default_columns
        [Value.str "Alice", Value.int 30, Value.int 70000] = true
    ∧ DataHandler.validate_record
        (DataHandler.set_default_columns
          ⟨DataHandler.default_columns, [⟨⟨DataHandler.default_columns, []⟩⟩]⟩
          ["name", "age", "salary", "department"]).default_columns
        [Value.str "Alice", Value.int 30, Value.int 70000] = false :=
  set_default_columns_shared_state
    ⟨DataHandler.default_columns, [⟨⟨DataHandler.default_columns, []⟩⟩]⟩
    ["name", "age", "salary", "department"]
    [Value.str "Alice", Value.int 30, Value.int 70000] (by decide) (by decide)

/-- Witness for C6 at the concrete input `[1, 2, 3]`. -/
theorem standardize_elementwise_witness :
    ∃ ys, DataProcessing.standardize [(1 : ℝ), 2, 3] = Except.ok ys
      ∧ ys.length = ([(1 : ℝ), 2, 3] : List ℝ).length
      ∧ ∀ (i : ℕ) (hx : i < ([(1 : ℝ), 2, 3] : List ℝ).length) (hy : i < ys.length),
          ys.get ⟨i, hy⟩ = (([(1 : ℝ), 2, 3] : List ℝ).get ⟨i, hx⟩
            - specMean [(1 : ℝ), 2, 3]) / specStd [(1 : ℝ), 2, 3] :=
  standardize_elementwise [1, 2, 3] (by simp)


/-! ### Helper lemmas about the filesystem operations -/

lemma mem_prefixes_length {q p : FsPath} (h : q ∈ prefixes p) :
    q.length ≤ p.length := by
  induction p generalizing q with
  | nil => cases h
  | cons a rest ih =>
    rcases List.mem_cons.mp h with heq | hmem
    · subst heq
      simp
    · obtain ⟨q', hq', rfl⟩ := List.mem_map.mp hmem
      simpa using ih hq'

lemma self_mem_prefixes (p : FsPath) (h : p ≠ []) : p ∈ prefixes p := by
  induction p with
  | nil => cases h rfl
  | cons a rest ih =>
    cases rest with
    | nil => simp [prefixes]
    | cons b t =>
      refine List.mem_cons.mpr (Or.inr ?_)
      exact List.mem_map.mpr ⟨b :: t, ih (by simp), rfl⟩

lemma prefixes_append (xs ys : FsPath) :
    prefixes (xs ++ ys) = prefixes xs ++ (prefixes ys).map (xs ++ ·) := by
  induction xs with
  | nil => simp [prefixes]
  | cons a xs ih =>
    rw [List.cons_append, prefixes, ih, List.map_append, List.map_map, prefixes,
      List.cons_append]
    simp [Function.comp]

lemma dropLast_append (xs ys : FsPath) (h : ys ≠ []) :
    (xs ++ ys).dropLast = xs ++ ys.dropLast := by
  induction ys using List.reverseRecOn with
  | nil => cases h rfl
  | append_singleton t a ih => simp [← List.append_assoc, List.dropLast_concat]

lemma lookupFile_cons_ne {l : List (FsPath × String)} {p q : FsPath}
    (c : String) (hne : q ≠ p) : lookupFile ((p, c) :: l) q = lookupFile l q := by
  simp [lookupFile, hne]

lemma lookupFile_cons_self (l : List (FsPath × String)) (p : FsPath)
    (c : String) : lookupFile ((p, c) :: l) p = some c := by
  simp [lookupFile]

lemma applyAct_establishes {fs fs' : FileSystem} {a : Act}
    (h : applyAct fs a = Except.ok fs') : actStable a fs' := by
  cases a with
  | mkdirA q target =>
    by_cases h1 : (lookupFile fs.files q).isSome = true
    · simp [applyAct, h1] at h
    · have h1' : lookupFile fs.files q = none := by
        cases hc : lookupFile fs.files q
        · rfl
        · rw [hc] at h1
          cases h1 rfl
      by_cases h2 : q ∈ fs.dirs
      · have : fs' = fs := by simpa [applyAct, h1', h2] using h.symm
        subst this
        exact ⟨h2, h1'⟩
      · have : fs' = { fs with dirs := q :: fs.dirs } := by
          simpa [applyAct, h1', h2] using h.symm
        subst this
        exact ⟨List.mem_cons_self _ _, h1'⟩
  | touchA p =>
    by_cases h1 : p ∈ fs.dirs
    · simp [applyAct, h1] at h
    · by_cases h2 : (lookupFile fs.files p).isSome = true
      · have : fs' = fs := by simpa [applyAct, h1, h2] using h.symm
        subst this
        exact ⟨h1, h2⟩
      · by_cases h3 : p.dropLast = [] ∨ p.dropLast ∈ fs.dirs
        · have : fs' = { fs with files := (p, "") :: fs.files } := by
            simpa [applyAct, h1, h2, h3] using h.symm
          subst this
          refine ⟨h1, ?_⟩
          rw [lookupFile_cons_self]
          rfl
        · by_cases h4 : (lookupFile fs.files p.dropLast).isSome = true <;>
            simp [applyAct, h1, h2, h3, h4] at h

lemma applyAct_preserves {fs fs' : FileSystem} {a b : Act}
    (hs : actStable a fs) (h : applyAct fs b = Except.ok fs') :
    actStable a fs' := by
  cases b with
  | mkdirA q target =>
    by_cases h1 : (lookupFile fs.files q).isSome = true
    · simp [applyAct, h1] at h
    · have h1' : lookupFile fs.files q = none := by
        cases hc : lookupFile fs.files q
        · rfl
        · rw [hc] at h1
          cases h1 rfl
      by_cases h2 : q ∈ fs.dirs
      · have : fs' = fs := by simpa [applyAct, h1', h2] using h.symm
        subst this
        exact hs
      · have hfs' : fs' = { fs with dirs := q :: fs.dirs } := by
          simpa [applyAct, h1', h2] using h.symm
        subst hfs'
        cases a with
        | mkdirA qa ta =>
          exact ⟨List.mem_cons_of_mem _ hs.1, hs.2⟩
        | touchA pa =>
          refine ⟨?_, hs.2⟩
          intro hmem
          rcases List.mem_cons.mp hmem with heq | hmem'
          · subst heq
            have hl := hs.2
            rw [h1'] at hl
            cases hl
          · exact hs.1 hmem'
  | touchA p =>
    by_cases h1 : p ∈ fs.dirs
    · simp [applyAct, h1] at h
    · by_cases h2 : (lookupFile fs.files p).isSome = true
      · have : fs' = fs := by simpa [applyAct, h1, h2] using h.symm
        subst this
        exact hs
      · by_cases h3 : p.dropLast = [] ∨ p.dropLast ∈ fs.dirs
        · have h2' : lookupFile fs.files p = none := by
            cases hc : lookupFile fs.files p
            · rfl
            · rw [hc] at h2
              cases h2 rfl
          have hfs' : fs' = { fs with files := (p, "") :: fs.files } := by
            simpa [applyAct, h1, h2, h3] using h.symm
          subst hfs'
          cases a with
          | mkdirA qa ta =>
            refine ⟨hs.1, ?_⟩
            have hne : qa ≠ p := by
              intro heq
              subst heq
              exact h1 hs.1
            rw [lookupFile_cons_ne _ hne]
            exact hs.2
          | touchA pa =>
            refine ⟨hs.1, ?_⟩
            by_cases heq : pa = p
            · subst heq
              rw [lookupFile_cons_self]
              rfl
            · rw [lookupFile_cons_ne _ heq]
              exact hs.2
        · by_cases h4 : (lookupFile fs.files p.dropLast).isSome = true <;>
            simp [applyAct, h1, h2, h3, h4] at h

lemma applyAct_stable_noop {fs : FileSystem} {a : Act} (hs : actStable a fs) :
    applyAct fs a = Except.ok fs := by
  cases a with
  | mkdirA q target => simp [applyAct, hs.1, hs.2]
  | touchA p => simp [applyAct, hs.1, hs.2]

lemma runActs_preserves_stable {a : Act} (l : List Act) {fs : FileSystem}
    (hs : actStable a fs) : actStable a (runActs fs l).fs := by
  induction l generalizing fs with
  | nil => exact hs
  | cons b rest ih =>
    cases hb : applyAct fs b with
    | ok fs' =>
      rw [runActs, hb]
      exact ih (applyAct_preserves hs hb)
    | error e =>
      rw [runActs, hb]
      exact hs

lemma runActs_replay (l : List Act) (fs : FileSystem) :
    runActs (runActs fs l).fs l = runActs fs l := by
  induction l generalizing fs with
  | nil => rfl
  | cons a rest ih =>
    cases ha : applyAct fs a with
    | ok fs₁ =>
      have hstep : runActs fs (a :: rest) = runActs fs₁ rest := by
        rw [runActs, ha]
      rw [hstep]
      have hstable : actStable a (runActs fs₁ rest).fs :=
        runActs_preserves_stable rest (applyAct_establishes ha)
      rw [runActs, applyAct_stable_noop hstable]
      exact ih fs₁
    | error e =>
      have hstep : runActs fs (a :: rest) = ⟨Except.error e, fs⟩ := by
        rw [runActs, ha]
      rw [hstep]
      exact hstep

lemma applyAct_files_preserve {fs fs' : FileSystem} {a : Act}
    (h : applyAct fs a = Except.ok fs') {p : FsPath} {c : String}
    (hp : lookupFile fs.files p = some c) : lookupFile fs'.files p = some c := by
  cases a with
  | mkdirA q target =>
    by_cases h1 : (lookupFile fs.files q).isSome = true
    · simp [applyAct, h1] at h
    · have h1' : lookupFile fs.files q = none := by
        cases hc : lookupFile fs.files q
        · rfl
        · rw [hc] at h1
          cases h1 rfl
      by_cases h2 : q ∈ fs.dirs <;>
        · have : fs'.files = fs.files := by
            have := h.symm
            simp [applyAct, h1', h2] at this
            rw [this]
          rw [this]
          exact hp
  | touchA p' =>
    by_cases h1 : p' ∈ fs.dirs
    · simp [applyAct, h1] at h
    · by_cases h2 : (lookupFile fs.files p').isSome = true
      · have : fs' = fs := by simpa [applyAct, h1, h2] using h.symm
        subst this
        exact hp
      · by_cases h3 : p'.dropLast = [] ∨ p'.dropLast ∈ fs.dirs
        · have h2' : lookupFile fs.files p' = none := by
            cases hc : lookupFile fs.files p'
            · rfl
            · rw [hc] at h2
              cases h2 rfl
          have hfs' : fs' = { fs with files := (p', "") :: fs.files } := by
            simpa [applyAct, h1, h2, h3] using h.symm
          subst hfs'
          have hne : p ≠ p' := by
            intro heq
            subst heq
            rw [h2'] at hp
            cases hp
          rw [lookupFile_cons_ne _ hne]
          exact hp
        · by_cases h4 : (lookupFile fs.files p'.dropLast).isSome = true <;>
            simp [applyAct, h1, h2, h3, h4] at h

lemma runActs_files_preserve (l : List Act) (fs : FileSystem) {p : FsPath}
    {c : String} (hp : lookupFile fs.files p = some c) :
    lookupFile (runActs fs l).fs.files p = some c := by
  induction l generalizing fs with
  | nil => exact hp
  | cons a rest ih =>
    cases ha : applyAct fs a with
    | ok fs' =>
      rw [runActs, ha]
      exact ih fs' (applyAct_files_preserve ha hp)
    | error e =>
      rw [runActs, ha]
      exact hp

lemma runActs_append_ok {l₁ : List Act} {fs gs : FileSystem}
    (h : runActs fs l₁ = ⟨Except.ok (), gs⟩) (l₂ : List Act) :
    runActs fs (l₁ ++ l₂) = runActs gs l₂ := by
  induction l₁ generalizing fs with
  | nil =>
    cases h
    rfl
  | cons a t ih =>
    rw [List.cons_append]
    cases ha : applyAct fs a with
    | ok fs' =>
      rw [runActs, ha] at h
      rw [runActs, ha]
      exact ih h
    | error e =>
      rw [runActs, ha] at h
      simp at h
    
lemma runActs_append_error {l₁ : List Act} {fs gs : FileSystem} {e : String}
    (h : runActs fs l₁ = ⟨Except.error e, gs⟩) (l₂ : List Act) :
    runActs fs (l₁ ++ l₂) = ⟨Except.error e, gs⟩ := by
  induction l₁ generalizing fs with
  | nil => simp [runActs] at h
  | cons a t ih =>
    rw [List.cons_append]
    cases ha : applyAct fs a with
    | ok fs' =>
      rw [runActs, ha] at h
      rw [runActs, ha]
      exact ih h
    | error e' =>
      rw [runActs, ha] at h
      rw [runActs, ha]
      exact h

lemma flatten_map_singleton {α β : Type} (g : α → β) (L : List α) :
    (L.map fun x => [g x]).flatten = L.map g := by
  induction L with
  | nil => rfl
  | cons a t ih => simp [ih]

lemma runResult_ext {R : RunResult} {r : Except String Unit}
    (h : R.result = r) : R = ⟨r, R.fs⟩ := by
  cases R
  cases h
  rfl

lemma forLoop_eq {α : Type} (step : FileSystem → α → RunResult)
    (acts : α → List Act) (hstep : ∀ s x, step s x = runActs s (acts x))
    (fs : FileSystem) (L : List α) :
    forLoop step fs L = runActs fs ((L.map acts).flatten) := by
  induction L generalizing fs with
  | nil => rfl
  | cons x t ih =>
    rw [List.map_cons, List.flatten_cons, forLoop]
    simp only [hstep]
    cases hres : (runActs fs (acts x)).result with
    | ok u =>
      cases u
      rw [runActs_append_ok (runResult_ext hres) ((t.map acts).flatten)]
      exact ih ((runActs fs (acts x)).fs)
    | error e =>
      rw [runActs_append_error (runResult_ext hres) ((t.map acts).flatten)]

lemma create_folder_structure_eq_runActs (base_path : FsPath) (fs : FileSystem) :
    create_folder_structure base_path fs = runActs fs (scriptActs base_path) := by
  have h1 : forLoop (fun s folder => makedirs s (pathJoin base_path folder)) fs folders
      = runActs fs ((folders.map fun folder =>
          (prefixes (pathJoin base_path folder)).map fun q =>
            Act.mkdirA q (pathJoin base_path folder)).flatten) :=
    forLoop_eq _ _ (fun s x => rfl) fs folders
  have h2 : ∀ gs : FileSystem,
      forLoop (fun s file => touchAppend s (pathJoin base_path file)) gs files
        = runActs gs (files.map fun file => Act.touchA (pathJoin base_path file)) := by
    intro gs
    rw [forLoop_eq (fun s file => touchAppend s (pathJoin base_path file))
      (fun file => [Act.touchA (pathJoin base_path file)]) (fun s x => rfl) gs files,
      flatten_map_singleton]
  rw [create_folder_structure, scriptActs, h1]
  cases hres : (runActs fs ((folders.map fun folder =>
      (prefixes (pathJoin base_path folder)).map fun q =>
        Act.mkdirA q (pathJoin base_path folder)).flatten)).result with
  | ok u =>
    cases u
    rw [h2, runActs_append_ok (runResult_ext hres) _]
  | error e =>
    rw [runActs_append_error (runResult_ext hres) _]

lemma run_mkdir_phase (L : List (FsPath × FsPath)) (fs : FileSystem)
    (hA : ∀ x ∈ L, lookupFile fs.files x.1 = none) :
    ∃ gs : FileSystem,
      runActs fs (L.map fun x => Act.mkdirA x.1 x.2) = ⟨Except.ok (), gs⟩
      ∧ gs.files = fs.files
      ∧ (∀ d ∈ fs.dirs, d ∈ gs.dirs)
      ∧ (∀ x ∈ L, x.1 ∈ gs.dirs)
      ∧ (∀ d ∈ gs.dirs, d ∈ fs.dirs ∨ ∃ x ∈ L, d = x.1) := by
  induction L generalizing fs with
  | nil =>
    exact ⟨fs, rfl, rfl, fun d hd => hd, fun x hx => absurd hx (List.not_mem_nil x),
      fun d hd => Or.inl hd⟩
  | cons x t ih =>
    have h1 : lookupFile fs.files x.1 = none := hA x (List.mem_cons_self x t)
    by_cases hx : x.1 ∈ fs.dirs
    · have happ : applyAct fs (Act.mkdirA x.1 x.2) = Except.ok fs := by
        simp [applyAct, h1, hx]
      obtain ⟨gs, hrun, hfiles, hmono, hmem, hupper⟩ :=
        ih fs (fun y hy => hA y (List.mem_cons_of_mem x hy))
      refine ⟨gs, ?_, hfiles, hmono, ?_, ?_⟩
      · rw [List.map_cons, runActs, happ]
        exact hrun
      · intro y hy
        rcases List.mem_cons.mp hy with heq | hmem'
        · subst heq
          exact hmono _ hx
        · exact hmem y hmem'
      · intro d hd
        rcases hupper d hd with hl | ⟨y, hy, hdy⟩
        · exact Or.inl hl
        · exact Or.inr ⟨y, List.mem_cons_of_mem x hy, hdy⟩
    · have happ : applyAct fs (Act.mkdirA x.1 x.2)
          = Except.ok { fs with dirs := x.1 :: fs.dirs } := by
        simp [applyAct, h1, hx]
      obtain ⟨gs, hrun, hfiles, hmono, hmem, hupper⟩ :=
        ih { fs with dirs := x.1 :: fs.dirs }
          (fun y hy => hA y (List.mem_cons_of_mem x hy))
      refine ⟨gs, ?_, hfiles, ?_, ?_, ?_⟩
      · rw [List.map_cons, runActs, happ]
        exact hrun
      · intro d hd
        exact hmono d (List.mem_cons_of_mem _ hd)
      · intro y hy
        rcases List.mem_cons.mp hy with heq | hmem'
        · subst heq
          exact hmono _ (List.mem_cons_self _ _)
        · exact hmem y hmem'
      · intro d hd
        rcases hupper d hd with hl | ⟨y, hy, hdy⟩
        · rcases List.mem_cons.mp hl with heq | hmem'
          · exact Or.inr ⟨x, List.mem_cons_self x t, heq⟩
          · exact Or.inl hmem'
        · exact Or.inr ⟨y, List.mem_cons_of_mem x hy, hdy⟩

lemma run_touch_phase (P : List FsPath) (fs : FileSystem)
    (h : ∀ p ∈ P, p ∉ fs.dirs ∧ (p.dropLast = [] ∨ p.dropLast ∈ fs.dirs)) :
    ∃ gs : FileSystem,
      runActs fs (P.map Act.touchA) = ⟨Except.ok (), gs⟩
      ∧ gs.dirs = fs.dirs
      ∧ (∀ q c, lookupFile fs.files q = some c → lookupFile gs.files q = some c)
      ∧ (∀ p ∈ P, (lookupFile gs.files p).isSome = true)
      ∧ (∀ p ∈ P, lookupFile fs.files p = none → lookupFile gs.files p = some "") := by
  induction P generalizing fs with
  | nil =>
    exact ⟨fs, rfl, rfl, fun q c hc => hc, fun p hp => absurd hp (List.not_mem_nil p),
      fun p hp => absurd hp (List.not_mem_nil p)⟩
  | cons p t ih =>
    obtain ⟨hp1, hp2⟩ := h p (List.mem_cons_self p t)
    cases hl : lookupFile fs.files p with
    | some c =>
      have happ : applyAct fs (Act.touchA p) = Except.ok fs := by
        simp [applyAct, hp1, hl]
      obtain ⟨gs, hrun, hdirs, hpres, hsome, hnew⟩ :=
        ih fs (fun y hy => h y (List.mem_cons_of_mem p hy))
      refine ⟨gs, ?_, hdirs, hpres, ?_, ?_⟩
      · rw [List.map_cons, runActs, happ]
        exact hrun
      · intro y hy
        rcases List.mem_cons.mp hy with heq | hmem'
        · subst heq
          rw [hpres y c hl]
          rfl
        · exact hsome y hmem'
      · intro y hy hyn
        rcases List.mem_cons.mp hy with heq | hmem'
        · subst heq
          rw [hl] at hyn
          cases hyn
        · exact hnew y hmem' hyn
    | none =>
      have happ : applyAct fs (Act.touchA p)
          = Except.ok { fs with files := (p, "") :: fs.files } := by
        simp [applyAct, hp1, hl, hp2]
      have hrest : ∀ y ∈ t, y ∉ ({ fs with files := (p, "") :: fs.files } : FileSystem).dirs
          ∧ (y.dropLast = [] ∨ y.dropLast ∈ ({ fs with files := (p, "") :: fs.files } : FileSystem).dirs) :=
        fun y hy => h y (List.mem_cons_of_mem p hy)
      obtain ⟨gs, hrun, hdirs, hpres, hsome, hnew⟩ :=
        ih { fs with files := (p, "") :: fs.files } hrest
      refine ⟨gs, ?_, hdirs, ?_, ?_, ?_⟩
      · rw [List.map_cons, runActs, happ]
        exact hrun
      · intro q c hc
        have hne : q ≠ p := by
          intro heq
          subst heq
          rw [hl] at hc
          cases hc
        exact hpres q c (by rw [lookupFile_cons_ne _ hne]; exact hc)
      · intro y hy
        rcases List.mem_cons.mp hy with heq | hmem'
        · subst heq
          rw [hpres y "" (lookupFile_cons_self _ _ _)]
          rfl
        · exact hsome y hmem'
      · intro y hy hyn
        rcases List.mem_cons.mp hy with heq | hmem'
        · subst heq
          exact hpres y "" (lookupFile_cons_self _ _ _)
        · by_cases heq : y = p
          · subst heq
            exact hpres y "" (lookupFile_cons_self _ _ _)
          · exact hnew y hmem' (by rw [lookupFile_cons_ne _ heq]; exact hyn)

/-! ## Claims about the folder-scaffolding script -/

/-- C9 counterexample: on a filesystem that already has a regular file at
`project/envs`, the script raises `FileExistsError` inside `os.makedirs`
and stops; in particular the placeholder file `project/LICENSE` is never
created, so the script does not create all listed directories and files for
every starting state. -/
theorem create_folder_structure_collision_fails :
    (create_folder_structure ["project"]
        ⟨[], [(["project", "envs"], "junk")]⟩).result
      = Except.error "FileExistsError"
    ∧ lookupFile (create_folder_structure ["project"]
        ⟨[], [(["project", "envs"], "junk")]⟩).fs.files
        (pathJoin ["project"] ["LICENSE"]) = none :=
  ⟨rfl, rfl⟩

/-- C9 (amended): for every base path and every starting filesystem in
which no component of a target directory path exists as a regular file and
no placeholder file path exists as a directory, the script succeeds and
creates under the base path all twelve listed directories and all seventeen
listed placeholder files, and each placeholder file that did not previously
exist is empty after the call. -/
theorem create_folder_structure_complete (base_path : FsPath) (fs : FileSystem)
    (hA : ∀ f ∈ folders, ∀ q ∈ prefixes (pathJoin base_path f),
        lookupFile fs.files q = none)
    (hB : ∀ t ∈ files, pathJoin base_path t ∉ fs.dirs) :
    (create_folder_structure base_path fs).result = Except.ok ()
    ∧ folders.length = 12 ∧ files.length = 17
    ∧ (∀ f ∈ folders,
        pathJoin base_path f ∈ (create_folder_structure base_path fs).fs.dirs)
    ∧ (∀ t ∈ files,
        (lookupFile (create_folder_structure base_path fs).fs.files
          (pathJoin base_path t)).isSome = true)
    ∧ (∀ t ∈ files, lookupFile fs.files (pathJoin base_path t) = none →
        lookupFile (create_folder_structure base_path fs).fs.files
          (pathJoin base_path t) = some "") := by
  set L := (folders.map fun folder =>
      (prefixes (pathJoin base_path folder)).map fun q =>
        (q, pathJoin base_path folder)).flatten with hLdef
  have hacts : (folders.map fun folder =>
        (prefixes (pathJoin base_path folder)).map fun q =>
          Act.mkdirA q (pathJoin base_path folder)).flatten
      = L.map fun x => Act.mkdirA x.1 x.2 := by
    rw [hLdef, List.map_flatten, List.map_map]
    congr 1
    apply List.map_congr_left
    intro f hf
    simp [List.map_map, Function.comp]
  have hmemL : ∀ (q f : FsPath), f ∈ folders → q ∈ prefixes (pathJoin base_path f) →
      (q, pathJoin base_path f) ∈ L := by
    intro q f hf hq
    rw [hLdef]
    exact List.mem_flatten.mpr ⟨_, List.mem_map_of_mem _ hf, List.mem_map_of_mem _ hq⟩
  have hA' : ∀ x ∈ L, lookupFile fs.files x.1 = none := by
    intro x hx
    rw [hLdef] at hx
    obtain ⟨l, hl, hxl⟩ := List.mem_flatten.mp hx
    obtain ⟨f, hf, rfl⟩ := List.mem_map.mp hl
    obtain ⟨q, hq, rfl⟩ := List.mem_map.mp hxl
    exact hA f hf q hq
  obtain ⟨gs₁, hrun₁, hfiles₁, hmono₁, hmem₁, hupper₁⟩ := run_mkdir_phase L fs hA'
  have hcreate : create_folder_structure base_path fs
      = runActs gs₁ (files.map fun file => Act.touchA (pathJoin base_path file)) := by
    rw [create_folder_structure_eq_runActs, scriptActs, hacts,
      runActs_append_ok hrun₁]
  have hfne : ∀ f ∈ folders, f ≠ ([] : FsPath) := by decide
  have htne : ∀ t ∈ files, t ≠ ([] : FsPath) := by decide
  have hnp : ∀ t ∈ files, ∀ f ∈ folders, t ∉ prefixes f := by decide
  have hpar : ∀ t ∈ files, t.dropLast = ([] : FsPath)
      ∨ ∃ f ∈ folders, t.dropLast ∈ prefixes f := by decide
  have hf₀ : (["data", "external"] : FsPath) ∈ folders := by decide
  have hbase : base_path ≠ [] → base_path ∈ gs₁.dirs := by
    intro hb
    apply hmem₁ (base_path, pathJoin base_path ["data", "external"])
    apply hmemL base_path ["data", "external"] hf₀
    show base_path ∈ prefixes (base_path ++ ["data", "external"])
    rw [prefixes_append]
    exact List.mem_append_left _ (self_mem_prefixes base_path hb)
  have hjoined : ∀ f ∈ folders, ∀ g ∈ prefixes f,
      pathJoin base_path g ∈ gs₁.dirs := by
    intro f hf g hg
    apply hmem₁ (pathJoin base_path g, pathJoin base_path f)
    apply hmemL _ f hf
    show base_path ++ g ∈ prefixes (base_path ++ f)
    rw [prefixes_append]
    exact List.mem_append_right _ (List.mem_map_of_mem _ hg)
  have htouch : ∀ p ∈ files.map (pathJoin base_path), p ∉ gs₁.dirs
      ∧ (p.dropLast = [] ∨ p.dropLast ∈ gs₁.dirs) := by
    intro p hp
    obtain ⟨t, ht, rfl⟩ := List.mem_map.mp hp
    constructor
    · intro hmem
      rcases hupper₁ _ hmem with hin | ⟨x, hx, hdx⟩
      · exact hB t ht hin
      · rw [hLdef] at hx
        obtain ⟨l, hl, hxl⟩ := List.mem_flatten.mp hx
        obtain ⟨f, hf, rfl⟩ := List.mem_map.mp hl
        obtain ⟨q, hq, rfl⟩ := List.mem_map.mp hxl
        have hdx' : pathJoin base_path t = q := hdx
        have hq' : q ∈ prefixes base_path
            ∨ q ∈ (prefixes f).map (base_path ++ ·) := by
          rw [← List.mem_append, ← prefixes_append]
          exact hq
        rcases hq' with hqb | hqf
        · have hlen := mem_prefixes_length hqb
          rw [← hdx'] at hlen
          have hlen' : base_path.length + t.length ≤ base_path.length := by
            simpa [pathJoin] using hlen
          have hpos : 0 < t.length := List.length_pos.mpr (htne t ht)
          omega
        · obtain ⟨g, hg, hgq⟩ := List.mem_map.mp hqf
          have hteg : base_path ++ t = base_path ++ g := by
            rw [hgq]
            exact hdx'
          have : t = g := List.append_cancel_left hteg
          subst this
          exact hnp t ht f hf hg
    · have hdl : (pathJoin base_path t).dropLast = pathJoin base_path t.dropLast := by
        show (base_path ++ t).dropLast = base_path ++ t.dropLast
        exact dropLast_append base_path t (htne t ht)
      rw [hdl]
      rcases hpar t ht with hnil | ⟨f, hf, hgf⟩
      · rw [hnil]
        by_cases hb : base_path = []
        · left
          show base_path ++ [] = []
          rw [hb]
          rfl
        · right
          show base_path ++ [] ∈ gs₁.dirs
          rw [List.append_nil]
          exact hbase hb
      · right
        exact hjoined f hf _ hgf
  obtain ⟨gs₂, hrun₂, hdirs₂, hpres₂, hsome₂, hnew₂⟩ :=
    run_touch_phase (files.map (pathJoin base_path)) gs₁ htouch
  have hform : (files.map fun file => Act.touchA (pathJoin base_path file))
      = (files.map (pathJoin base_path)).map Act.touchA := by
    rw [List.map_map]
    rfl
  rw [hform] at hcreate
  rw [hcreate, hrun₂]
  refine ⟨rfl, rfl, rfl, ?_, ?_, ?_⟩
  · intro f hf
    show pathJoin base_path f ∈ gs₂.dirs
    rw [hdirs₂]
    exact hjoined f hf f (self_mem_prefixes f (hfne f hf))
  · intro t ht
    show (lookupFile gs₂.files (pathJoin base_path t)).isSome = true
    exact hsome₂ _ (List.mem_map_of_mem _ ht)
  · intro t ht hn
    show lookupFile gs₂.files (pathJoin base_path t) = some ""
    apply hnew₂ _ (List.mem_map_of_mem _ ht)
    rw [hfiles₁]
    exact hn

/-- Witness for the amended C9 on the empty filesystem with the notebook's
base path `project`: the run succeeds, the first listed directory exists,
and the first listed placeholder file is empty. -/
theorem create_folder_structure_complete_witness :
    (create_folder_structure ["project"] ⟨[], []⟩).result = Except.ok ()
    ∧ pathJoin ["project"] ["data", "external"]
        ∈ (create_folder_structure ["project"] ⟨[], []⟩).fs.dirs
    ∧ lookupFile (create_folder_structure ["project"] ⟨[], []⟩).fs.files
        (pathJoin ["project"] ["LICENSE"]) = some "" :=
  ⟨(create_folder_structure_complete ["project"] ⟨[], []⟩
      (fun f hf q hq => rfl) (fun t ht => List.not_mem_nil _)).1,
   (create_folder_structure_complete ["project"] ⟨[], []⟩
      (fun f hf q hq => rfl) (fun t ht => List.not_mem_nil _)).2.2.2.1
      ["data", "external"] (by decide),
   (create_folder_structure_complete ["project"] ⟨[], []⟩
      (fun f hf q hq => rfl) (fun t ht => List.not_mem_nil _)).2.2.2.2.2
      ["LICENSE"] (by decide) rfl⟩

/-- C10: the script is idempotent and never destroys existing content, for
every base path and every starting filesystem state: running it a second
time on the state the first run produced gives exactly the same outcome and
state — if the first run raised, the second raises the same error at the
same point with no further effect — and a file that already exists keeps
its content (directories are create-or-keep, files are opened in append
mode and never truncated). -/
theorem create_folder_structure_idempotent (base_path : FsPath) (fs : FileSystem) :
    create_folder_structure base_path (create_folder_structure base_path fs).fs
      = create_folder_structure base_path fs
    ∧ ∀ p c, lookupFile fs.files p = some c →
        lookupFile (create_folder_structure base_path fs).fs.files p = some c := by
  constructor
  · simp only [create_folder_structure_eq_runActs]
    exact runActs_replay (scriptActs base_path) fs
  · intro p c h
    rw [create_folder_structure_eq_runActs]
    exact runActs_files_preserve (scriptActs base_path) fs h

/-- Witness for C10: a pre-existing `project/README.md` with content keeps
its content, and the second run is a no-op, on a concrete filesystem. -/
theorem create_folder_structure_idempotent_witness :
    create_folder_structure ["project"]
        (create_folder_structure ["project"]
          ⟨[], [(["project", "README.md"], "docs")]⟩).fs
      = create_folder_structure ["project"]
          ⟨[], [(["project", "README.md"], "docs")]⟩
    ∧ lookupFile (create_folder_structure ["project"]
        ⟨[], [(["project", "README.md"], "docs")]⟩).fs.files
        ["project", "README.md"] = some "docs" :=
  ⟨(create_folder_structure_idempotent ["project"]
      ⟨[], [(["project", "README.md"], "docs")]⟩).1,
   (create_folder_structure_idempotent ["project"]
      ⟨[], [(["project", "README.md"], "docs")]⟩).2
      ["project", "README.md"] "docs" rfl⟩
